import Mathlib

/-!
Verification development for the resume-tailor runtime switching and
rendering core: a shallow embedding of the Resume Switcher
(src/unnamed/part_000), Theme Switcher (src/js/theme-switcher.js) and
Resume Renderer (src/unnamed/part_001), together with theorems settling
the specification claims about initial-selection precedence, idempotence
of the change operations, error handling, effect ordering and render
completeness.

Modelling conventions:
* JavaScript objects become Lean structures; a JS object used as an
  ordered string-keyed map becomes an association list (Object.keys /
  Object.entries iterate in insertion order for string keys).
* Nullable values become Option; JS string truthiness (null and "" are
  falsy) is modelled by strTruthy.
* Stateful methods become pure state-transition functions returning the
  new state together with an ordered list of observable effects, listed
  in the exact order the corresponding statements execute in the source.
* localStorage, the URL query string, the stylesheet element and the
  body attributes are fields of the component state records.
-/

/-- JS truthiness of a nullable string: null/undefined and "" are falsy. -/
def strTruthy : Option String → Bool
  | none => false
  | some s => !(s == "")

/-- Worker for the JS single-character String.prototype.split: accumulates
the current segment (reversed) and cuts at each separator occurrence,
exactly like "a//b".split("/") = ["a", "", "b"]. -/
def splitAux (sep : Char) : List Char → List Char → List (List Char)
  | [], acc => [acc.reverse]
  | c :: cs, acc =>
      if c = sep then acc.reverse :: splitAux sep cs []
      else splitAux sep cs (c :: acc)

/-- Embedding of themePath.split("/") from the theme switcher. -/
def jsSplitOnSlash (s : String) : List String :=
  (splitAux '/' s.data []).map String.mk

/-- pathParts[0] in themeExists / changeTheme (JS split never returns an
empty array, so index 0 always exists; headD only supplies the default). -/
def themeNameOf (p : String) : String :=
  (jsSplitOnSlash p).headD ""

/-- parts[1] in changeTheme; only consulted when the path contains "/",
in which case the split has at least two elements. -/
def themeFileOf (p : String) : String :=
  (jsSplitOnSlash p).getD 1 ""

/-- Embedding of JS Array.prototype.join(sep): empty array gives "", a
single element stands alone, and sep is placed between neighbours. -/
def joinSep (sep : String) : List String → String
  | [] => ""
  | [a] => a
  | a :: rest => a ++ sep ++ joinSep sep rest

/-- word.charAt(0).toUpperCase() + word.slice(1) from the dropdown
display-name formatting (empty word stays empty, as in JS). -/
def capitalizeWord (w : String) : String :=
  match w.data with
  | [] => ""
  | c :: cs => String.mk (c.toUpper :: cs)

/-- Embedding of name.split(" ").map(capitalize).join(" ") used by
populateResumeOptions for dropdown labels. -/
def displayNameOfResume (name : String) : String :=
  joinSep " " (((splitAux ' ' name.data []).map String.mk).map capitalizeWord)

/-- Embedding of theme.name.replace(hyphen-regex, " ").trim() followed by
split(" ").map(capitalize).join(" ") used by populateThemeOptions. -/
def displayNameOfTheme (name : String) : String :=
  let spaced := (String.map (fun c => if c = '-' then ' ' else c) name).trim
  joinSep " " (((splitAux ' ' spaced.data []).map String.mk).map capitalizeWord)

/-- Characters encodeURIComponent leaves unescaped. -/
def isUnreservedURIChar (c : Char) : Bool :=
  c.isAlphanum || c = '-' || c = '_' || c = '.' || c = '!' || c = '~' ||
  c = '*' || c = Char.ofNat 39 || c = '(' || c = ')'

/-- Upper-case hexadecimal digit for a value below 16. -/
def hexDigitChar (n : Nat) : Char :=
  if n < 10 then Char.ofNat (48 + n) else Char.ofNat (55 + n)

/-- One percent-encoded byte, "%XX". -/
def percentEncodeByte (n : Nat) : String :=
  String.mk ['%', hexDigitChar (n / 16 % 16), hexDigitChar (n % 16)]

/-- Embedding of encodeURIComponent: unreserved characters pass through,
every other character is percent-encoded per UTF-8 byte. -/
def encodeURIComponent (s : String) : String :=
  String.join (s.data.map (fun c =>
    if isUnreservedURIChar c then String.singleton c
    else String.join (((String.singleton c).toUTF8.toList).map (fun b => percentEncodeByte b.toNat))))

/-! ## Manifest data model -/

/-- One record of the theme manifest's themes array (the list shape the
theme switcher consumes: ordered records carrying a name). -/
structure ThemeEntry where
  name : String
deriving DecidableEq, Repr

/-- data/themes.json as consumed by the theme switcher. -/
structure ThemesData where
  version : String
  totalThemes : Nat
  themes : List ThemeEntry
deriving DecidableEq, Repr

/-- One resume manifest entry (value side of the resumes mapping). -/
structure ResumeEntry where
  jsonFile : String
  jsonSize : Nat
  hasPngPhoto : Bool
deriving DecidableEq, Repr

/-- data/resumes.json as consumed by the resume switcher: resumes is a
string-keyed object, modelled as an insertion-ordered association list. -/
structure ResumesData where
  version : String
  totalResumes : Nat
  resumes : List (String × ResumeEntry)
deriving DecidableEq, Repr

/-- One dropdown option element: its value attribute and its text content. -/
structure OptionEl where
  value : String
  label : String
deriving DecidableEq, Repr

/-- Fallback manifest built in ThemeSwitcher.loadThemesData's catch block
(the generated timestamp is irrelevant to behaviour and omitted). -/
def themesFallbackData : ThemesData :=
  { version := "fallback", totalThemes := 0, themes := [] }

/-- Fallback manifest built in ResumeSwitcher.loadResumesData's catch
block. The source assigns a one-element ARRAY to resumes; Object.entries
of that array yields the single pair with key "0", which is what the
association-list model records. -/
def resumesFallbackData : ResumesData :=
  { version := "fallback", totalResumes := 1,
    resumes := [("0",
      { jsonFile := "resources/example/resume-data.json", jsonSize := 0, hasPngPhoto := false })] }

/-- ThemeSwitcher.populateThemeOptions: one option per manifest record,
value "<name>/theme", label the prettified display name. (The optgroup is
only appended when at least one option exists; the dropdown's option list
is the same either way.) -/
def populateThemeOptions (d : ThemesData) : List OptionEl :=
  d.themes.map (fun t => { value := t.name ++ "/theme", label := displayNameOfTheme t.name })

/-- ResumeSwitcher.populateResumeOptions: one option per Object.entries
pair, value the entry's jsonFile, label the title-cased key. -/
def populateResumeOptions (d : ResumesData) : List OptionEl :=
  d.resumes.map (fun nr => { value := nr.2.jsonFile, label := displayNameOfResume nr.1 })

/-- ThemeSwitcher.themeExists: split the candidate path on "/", keep the
leading segment, and test whether any manifest record has that name. -/
def themeExists (d : Option ThemesData) (themePath : String) : Bool :=
  match d with
  | none => false
  | some dd => dd.themes.any (fun t => t.name == themeNameOf themePath)

/-- ResumeSwitcher.resumeExists: Object.values(resumes).some on jsonFile. -/
def resumeExists (d : Option ResumesData) (resumePath : String) : Bool :=
  match d with
  | none => false
  | some dd => (dd.resumes.map Prod.snd).any (fun r => r.jsonFile == resumePath)

/-- ThemeSwitcher.setInitialTheme's resolution of the initial theme:
URL parameter (validated by themeExists), then localStorage (validated),
then the manifest's first record as "<name>/theme", then the hardcoded
"cyberpunk/theme". -/
def resolveInitialTheme (d : Option ThemesData) (urlParam stored : Option String) : String :=
  if strTruthy urlParam && themeExists d (urlParam.getD "") then urlParam.getD ""
  else if strTruthy stored && themeExists d (stored.getD "") then stored.getD ""
  else
    match d with
    | some dd =>
        match dd.themes with
        | t :: _ => t.name ++ "/theme"
        | [] => "cyberpunk/theme"
    | none => "cyberpunk/theme"

/-- ResumeSwitcher.setInitialResume's resolution of the initial resume:
URL parameter (validated by resumeExists), then localStorage (validated),
then the first manifest entry's jsonFile, then the hardcoded example path. -/
def resolveInitialResume (d : Option ResumesData) (urlParam stored : Option String) : String :=
  if strTruthy urlParam && resumeExists d (urlParam.getD "") then urlParam.getD ""
  else if strTruthy stored && resumeExists d (stored.getD "") then stored.getD ""
  else
    match d with
    | some dd =>
        match dd.resumes with
        | (_, r) :: _ => r.jsonFile
        | [] => "resources/example/resume-data.json"
    | none => "resources/example/resume-data.json"

/-! ## Theme switcher state machine -/

/-- Observable browser state touched by ThemeSwitcher.changeTheme. -/
structure ThemeState where
  currentTheme : Option String
  storedTheme : Option String
  hasStylesheet : Bool
  stylesheetHref : Option String
  bodyDataTheme : Option String
  bodyPdfMode : Bool
  pdfHandlerPresent : Bool
deriving DecidableEq, Repr

/-- Payload of the themeChanged CustomEvent. -/
structure ThemeChangedDetail where
  themeName : String
  themeFile : String
  fullPath : String
  isPDFMode : Bool
deriving DecidableEq, Repr

/-- Observable effects of one changeTheme call, in statement order. -/
inductive ThemeEffect where
  | setStylesheetHref (path : String)
  | setBodyDataTheme (name : String)
  | mutateCurrent (path : String)
  | persist (path : String)
  | dispatchThemeChanged (detail : ThemeChangedDetail)
  | updatePdfToggle
deriving DecidableEq, Repr

/-- changeTheme's parsing of the theme path: with a "/" the first segment
is the theme name and the second the file (normalized to end in ".css");
without one, the legacy branch hardcodes cyberpunk with file "theme" and
then applies the same ".css" normalization. -/
def parseThemePath (themePath : String) : String × String :=
  if themePath.data.contains '/' then
    let themeName := themeNameOf themePath
    let f := themeFileOf themePath
    (themeName, if f.endsWith ".css" then f else f ++ ".css")
  else
    let f := "theme"
    ("cyberpunk", if f.endsWith ".css" then f else f ++ ".css")

/-- ThemeSwitcher.changeTheme: no-op when the path is already current;
otherwise parse the path, build "css/<name>/<file>", update the stylesheet
href (when the element exists), tag the body, mutate current-theme state,
persist to localStorage, dispatch themeChanged, and finally poke the PDF
handler when one is registered. Effects are listed in execution order. -/
def changeTheme (s : ThemeState) (themePath : String) : ThemeState × List ThemeEffect :=
  if s.currentTheme = some themePath then (s, [])
  else
    let pr := parseThemePath themePath
    let fullPath := "css/" ++ pr.1 ++ "/" ++ pr.2
    let s1 : ThemeState :=
      { s with
        stylesheetHref := if s.hasStylesheet then some fullPath else s.stylesheetHref
        bodyDataTheme := some pr.1
        currentTheme := some themePath
        storedTheme := some themePath }
    let effects : List ThemeEffect :=
      (if s.hasStylesheet then [ThemeEffect.setStylesheetHref fullPath] else []) ++
      [ThemeEffect.setBodyDataTheme pr.1,
       ThemeEffect.mutateCurrent themePath,
       ThemeEffect.persist themePath,
       ThemeEffect.dispatchThemeChanged
         { themeName := pr.1, themeFile := pr.2, fullPath := fullPath,
           isPDFMode := s.bodyPdfMode }] ++
      (if s.pdfHandlerPresent then [ThemeEffect.updatePdfToggle] else [])
    (s1, effects)

/-! ## Resume switcher state machine -/

/-- Observable browser state touched by ResumeSwitcher.changeResume. -/
structure SwitcherState where
  currentResume : Option String
  storedResume : Option String
  rendererRegistered : Bool
  urlResumeParam : Option String
deriving DecidableEq, Repr

/-- Observable effects of one changeResume call, in statement order. -/
inductive ResumeEffect where
  | mutateCurrent (path : String)
  | persist (path : String)
  | rendererLoad (path : String)
  | navigate (url : String)
  | insertErrorPanel
  | dispatchResumeChanged (path : String)
deriving DecidableEq, Repr

/-- ResumeSwitcher.changeResume: no-op when the path is already current;
otherwise mutate current-resume state, persist it, then either delegate to
the registered renderer, or (no renderer) navigate to "?resume=<path>"
when the URL carries no truthy resume parameter, or prepend the in-page
error panel when it does; finally dispatch resumeChanged. -/
def changeResume (s : SwitcherState) (resumePath : String) : SwitcherState × List ResumeEffect :=
  if s.currentResume = some resumePath then (s, [])
  else
    let s1 : SwitcherState :=
      { s with currentResume := some resumePath, storedResume := some resumePath }
    let branch : List ResumeEffect :=
      if s.rendererRegistered then [ResumeEffect.rendererLoad resumePath]
      else if strTruthy s.urlResumeParam = false then
        [ResumeEffect.navigate ("?resume=" ++ encodeURIComponent resumePath)]
      else [ResumeEffect.insertErrorPanel]
    (s1, [ResumeEffect.mutateCurrent resumePath, ResumeEffect.persist resumePath] ++
         branch ++ [ResumeEffect.dispatchResumeChanged resumePath])

/-! ## Effect classifiers and ordering check -/

def isResumeMutation : ResumeEffect → Bool
  | ResumeEffect.mutateCurrent _ => true
  | _ => false

def isResumePersist : ResumeEffect → Bool
  | ResumeEffect.persist _ => true
  | _ => false

def isResumeDispatch : ResumeEffect → Bool
  | ResumeEffect.dispatchResumeChanged _ => true
  | _ => false

def isNavigateEffect : ResumeEffect → Bool
  | ResumeEffect.navigate _ => true
  | _ => false

def isErrorPanelEffect : ResumeEffect → Bool
  | ResumeEffect.insertErrorPanel => true
  | _ => false

def isThemeMutation : ThemeEffect → Bool
  | ThemeEffect.mutateCurrent _ => true
  | _ => false

def isThemePersist : ThemeEffect → Bool
  | ThemeEffect.persist _ => true
  | _ => false

def isThemeDispatch : ThemeEffect → Bool
  | ThemeEffect.dispatchThemeChanged _ => true
  | _ => false

/-- Walks an effect trace left to right and checks that every effect
satisfying isDis is preceded (strictly earlier in the trace) by at least
one effect satisfying isMut and one satisfying isPer; m and p record
whether such effects have been seen so far. -/
def checkDispatchAfterWrites {E : Type} (isMut isPer isDis : E → Bool) :
    List E → Bool → Bool → Bool
  | [], _, _ => true
  | e :: rest, m, p =>
      ((!isDis e) || (m && p)) &&
      checkDispatchAfterWrites isMut isPer isDis rest (m || isMut e) (p || isPer e)

/-! ## Resume renderer: data model and markup templates -/

/-- ResumeData.personal as dereferenced by the renderer. -/
structure Personal where
  name : String
  title : String
  photo : String
  phone : String
  email : String
  location : String
  linkedin : String
  instagram : String
  github : String
  workAuth : String
  hobbies : String
  summaryMini : String
deriving DecidableEq, Repr

/-- One skills entry: a name and a 0-5 proficiency level. -/
structure Skill where
  name : String
  level : Nat
deriving DecidableEq, Repr

/-- One experience entry. -/
structure Job where
  role : String
  company : String
  date : String
  location : String
  tech : String
  bullets : List String
deriving DecidableEq, Repr

/-- One education entry. -/
structure Education where
  degree : String
  school : String
  date : String
  focus : String
deriving DecidableEq, Repr

/-- One projects entry. -/
structure Project where
  title : String
  desc : String
deriving DecidableEq, Repr

/-- The resume JSON document the renderer consumes. skills is a
string-keyed object of category name to skill list, modelled as an
insertion-ordered association list (Object.keys iteration order). -/
structure ResumeData where
  personal : Personal
  skills : List (String × List Skill)
  qualities : List String
  experience : List Job
  education : List Education
  projects : List Project
deriving DecidableEq, Repr

/-- category.charAt(0).toUpperCase() + category.slice(1) with underscores
replaced by spaces in the tail (the first character is not replaced,
matching the source's slice(1).replace call). -/
def skillCategoryTitle (category : String) : String :=
  match category.data with
  | [] => ""
  | c :: cs => String.mk (c.toUpper :: cs.map (fun ch => if ch = '_' then ' ' else ch))

/-- The skill-row template: name plus a 5-segment meter. -/
def renderSkillRow (item : Skill) : String :=
  "<div class=\"skill-row\"><span class=\"skill-name\">" ++ item.name ++
  "</span><div class=\"meter\" data-level=\"" ++ toString item.level ++ "\">" ++
  String.join (List.replicate 5 "<div class=\"seg\"></div>") ++ "</div></div>"

/-- The per-category skills section template. -/
def renderSkillSection (category : String) (items : List Skill) : String :=
  "\n        <div class=\"section\"><h3>" ++ skillCategoryTitle category ++ "</h3>\n          " ++
  String.join (items.map renderSkillRow) ++ "\n        </div>"

/-- The quality pill template. -/
def renderQualityPill (q : String) : String :=
  "<span class=\"pill\">" ++ q ++ "</span>"

/-- The per-job experience article template, bullets rendered as one list
item each. -/
def renderJob (job : Job) : String :=
  "\n            <article class=\"job\">\n              <div class=\"top\"><h3>" ++ job.role ++
  " — " ++ job.company ++ "</h3><div class=\"muted\">" ++ job.date ++ " · " ++ job.location ++
  "</div></div>\n              <div class=\"muted\">" ++ job.tech ++ "</div>\n              <ul>" ++
  String.join (job.bullets.map (fun b => "<li>" ++ b ++ "</li>")) ++
  "</ul>\n            </article>"

/-- The per-entry education template. -/
def renderEducation (ed : Education) : String :=
  "\n              <div class=\"job\"><div class=\"top\"><h3>" ++ ed.degree ++ " — " ++
  ed.school ++ "</h3><div class=\"muted\">" ++ ed.date ++ "</div></div><div class=\"muted\">" ++
  ed.focus ++ "</div></div>"

/-- The per-entry projects template (the anchor's href is bound to the
desc field, exactly as in the source). -/
def renderProject (pr : Project) : String :=
  "<div class=\"job\"><h3>" ++ pr.title ++ "</h3><div class=\"muted\"><a href=\"" ++ pr.desc ++
  "\" target=\"_blank\">Link To Paper</a></div></div>"

/-- The sidebar template of renderResume: avatar, name, role, the fixed
contact list, one section per skills category, then the qualities pills
joined with single spaces. -/
def sidebarHtml (data : ResumeData) : String :=
  "\n      <aside class=\"sidebar\">\n        <div class=\"avatar\"><img src=\"" ++
  data.personal.photo ++ "\" alt=\"" ++ data.personal.name ++
  "\" /></div>\n        <div class=\"name\">" ++ data.personal.name ++
  "</div>\n        <div class=\"role\">" ++ data.personal.title ++
  "</div>\n\n        <div class=\"section\"><h3>Personal Details</h3>\n          <div class=\"contact\">\n            <div class=\"contact-row\"><span class=\"contact-key\">Phone:</span><span class=\"contact-value\">" ++
  data.personal.phone ++
  "</span></div>\n            <div class=\"contact-row\"><span class=\"contact-key\">Email:</span><span class=\"contact-value\">" ++
  data.personal.email ++
  "</span></div>\n            <div class=\"contact-row\"><span class=\"contact-key\">Location:</span><span class=\"contact-value\">" ++
  data.personal.location ++
  "</span></div>\n            <div class=\"contact-row\"><span class=\"contact-key\">LinkedIn:</span><span class=\"contact-value\"><a href=\"https://www.linkedin.com/in/" ++
  data.personal.linkedin ++ "\" target=\"_blank\">" ++ data.personal.linkedin ++
  "</a></span></div>\n            <div class=\"contact-row\"><span class=\"contact-key\">Instagram:</span><span class=\"contact-value\"><a href=\"https://www.instagram.com/" ++
  data.personal.instagram ++ "\" target=\"_blank\">" ++ data.personal.instagram ++
  "</a></span></div>\n            <div class=\"contact-row\"><span class=\"contact-key\">GitHub:</span><span class=\"contact-value\"><a href=\"https://www.github.com/" ++
  data.personal.github ++ "\" target=\"_blank\">" ++ data.personal.github ++
  "</a></span></div>\n            <div class=\"contact-row\"><span class=\"contact-key\">Work Auth:</span><span class=\"contact-value\">" ++
  data.personal.workAuth ++
  "</span></div>\n            <div class=\"contact-row\"><span class=\"contact-key\">Hobbies:</span><span class=\"contact-value\">" ++
  data.personal.hobbies ++
  "</span></div>\n          </div>\n        </div>\n\n        " ++
  String.join (data.skills.map (fun pr => renderSkillSection pr.1 pr.2)) ++
  "\n\n        <div class=\"section\"><h3>Qualities</h3>\n          " ++
  joinSep " " (data.qualities.map renderQualityPill) ++
  "\n        </div>\n\n      </aside>\n    "

/-- The main-content template of renderResume: summary, the experience
articles in data order, then education beside projects. -/
def mainHtml (data : ResumeData) : String :=
  "\n      <main class=\"main\">\n        <section class=\"card\">\n          <h2>Professional Summary</h2>\n          <p class=\"muted\">" ++
  data.personal.summaryMini ++
  "</p>\n        </section>\n\n        <section class=\"card\"><h2>Experience</h2>\n          " ++
  String.join (data.experience.map renderJob) ++
  "\n        </section>\n\n        <section class=\"card two-col\">\n          <div>\n            <h2>Education</h2>\n            " ++
  String.join (data.education.map renderEducation) ++
  "\n          </div>\n          <div>\n            <h2>Projects & Publications</h2>\n            " ++
  String.join (data.projects.map renderProject) ++
  "\n          </div>\n        </section>\n      </main>\n    "

/-- The full replacement markup renderResume assigns to the container's
innerHTML. -/
def resumeMarkup (data : ResumeData) : String :=
  "<div class=\"page\"><div class=\"grid\">" ++ sidebarHtml data ++ mainHtml data ++
  "</div></div>"

/-! ## Resume renderer: load and render state machine -/

/-- Observable renderer state: the stored current resume data and the
container's innerHTML (none = the container was never written). -/
structure RendererState where
  currentResumeData : Option ResumeData
  hasContainer : Bool
  containerMarkup : Option String
deriving DecidableEq, Repr

/-- Return value of loadResumeData: the parsed document on success, or
the empty object from getFallbackResumeData on failure. -/
inductive LoadResult where
  | data (d : ResumeData)
  | emptyObject
deriving DecidableEq, Repr

/-- ResumeRenderer.getFallbackResumeData: logs and returns the empty
object. -/
def getFallbackResumeData : LoadResult :=
  LoadResult.emptyObject

/-- ResumeRenderer.renderResume as a state transition: no-op (with an
error log) when the container is missing or the data is absent, otherwise
replace the container markup wholesale. -/
def renderResume (s : RendererState) (data : Option ResumeData) : RendererState :=
  if s.hasContainer = false ∨ data = none then s
  else
    match data with
    | some d => { s with containerMarkup := some (resumeMarkup d) }
    | none => s

/-- ResumeRenderer.loadResumeData over the outcome of the fetch+parse
(Except.error carries the HTTP status of a non-ok response, with 0
standing for a transport error): on success store the document, invoke
renderResume and return the document; on failure log the CORS hint and
return the empty fallback object, touching nothing. The Bool records
whether the render step was invoked. -/
def loadResumeData (s : RendererState) (fetched : Except Nat ResumeData) :
    RendererState × LoadResult × Bool :=
  match fetched with
  | Except.ok d =>
      let s1 := { s with currentResumeData := some d }
      (renderResume s1 (some d), LoadResult.data d, true)
  | Except.error _ => (s, getFallbackResumeData, false)

/-! ## Page startup trace for the renderer-ready handshake -/

/-- Events of the renderer's startup, in the order the single-threaded
event loop produces them. -/
inductive PageEvent where
  | rendererConstructed
  | initialLoadStarted
  | rendererRegistered
  | readyDispatched
  | initialRenderCompleted
  | initialLoadFailed
deriving DecidableEq, Repr

/-- The synchronous body of initResumeRenderer: guarded by the module
variable, it constructs the renderer (whose async init suspends at the
fetch await after starting the default load), registers it on window, and
dispatches resumeRendererReady — all before the event loop can run the
fetch continuation. Returns the updated guard plus the emitted events. -/
def initResumeRendererSync (alreadyInitialized : Bool) : Bool × List PageEvent :=
  if alreadyInitialized then (true, [])
  else
    (true, [PageEvent.rendererConstructed, PageEvent.initialLoadStarted,
            PageEvent.rendererRegistered, PageEvent.readyDispatched])

/-- The continuation of ResumeRenderer.init's awaited loadResumeData: it
runs strictly after the synchronous startup tasks, completing the first
render on success or returning the fallback on failure. -/
def initialLoadContinuation (fetchOk : Bool) : List PageEvent :=
  if fetchOk then [PageEvent.initialRenderCompleted] else [PageEvent.initialLoadFailed]

/-- One page lifetime: both triggers of initResumeRenderer (the
DOMContentLoaded listener and the document.readyState timeout fallback)
run as synchronous tasks, then the awaited initial load resolves. -/
def pageStartupTrace (fetchOk : Bool) : List PageEvent :=
  let r1 := initResumeRendererSync false
  let r2 := initResumeRendererSync r1.1
  r1.2 ++ r2.2 ++ initialLoadContinuation fetchOk

/-! ## Auxiliary lemmas -/

theorem foldlAppend_shift (l : List String) (a : String) :
    l.foldl (· ++ ·) a = a ++ l.foldl (· ++ ·) "" := by
  induction l generalizing a with
  | nil => simp [List.foldl, String.append_empty]
  | cons x xs ih =>
      simp only [List.foldl]
      rw [ih (a ++ x), ih (("" : String) ++ x)]
      simp [String.append_assoc]

theorem strJoin_cons (s : String) (l : List String) :
    String.join (s :: l) = s ++ String.join l := by
  simp only [String.join, List.foldl]
  rw [foldlAppend_shift l (("" : String) ++ s)]
  simp

theorem splitAux_no_sep (sep : Char) (l acc : List Char) (h : sep ∉ l) :
    splitAux sep l acc = [acc.reverse ++ l] := by
  induction l generalizing acc with
  | nil => simp [splitAux]
  | cons c cs ih =>
      have hc : ¬ c = sep := fun hh => h (hh ▸ List.mem_cons_self c cs)
      have hcs : sep ∉ cs := fun hh => h (List.mem_cons_of_mem c hh)
      simp [splitAux, hc, ih _ hcs]

theorem splitAux_sep_split (sep : Char) (n f acc : List Char) (h : sep ∉ n) :
    splitAux sep (n ++ sep :: f) acc = (acc.reverse ++ n) :: splitAux sep f [] := by
  induction n generalizing acc with
  | nil => simp [splitAux]
  | cons c cs ih =>
      have hc : ¬ c = sep := fun hh => h (hh ▸ List.mem_cons_self c cs)
      have hcs : sep ∉ cs := fun hh => h (List.mem_cons_of_mem c hh)
      simp only [List.cons_append, splitAux, if_neg hc, List.append_eq]
      rw [ih _ hcs]
      simp

theorem slash_data_eq (n f : String) :
    (n ++ "/" ++ f).data = n.data ++ '/' :: f.data := by
  simp [String.data_append]

theorem jsSplitOnSlash_two (n f : String) (hn : '/' ∉ n.data) (hf : '/' ∉ f.data) :
    jsSplitOnSlash (n ++ "/" ++ f) = [n, f] := by
  simp only [jsSplitOnSlash, slash_data_eq]
  rw [splitAux_sep_split '/' n.data f.data [] hn, splitAux_no_sep '/' f.data [] hf]
  simp

theorem themeNameOf_two (n f : String) (hn : '/' ∉ n.data) (hf : '/' ∉ f.data) :
    themeNameOf (n ++ "/" ++ f) = n := by
  simp [themeNameOf, jsSplitOnSlash_two n f hn hf]

theorem themeFileOf_two (n f : String) (hn : '/' ∉ n.data) (hf : '/' ∉ f.data) :
    themeFileOf (n ++ "/" ++ f) = f := by
  simp [themeFileOf, jsSplitOnSlash_two n f hn hf]

theorem slash_contains (n f : String) : (n ++ "/" ++ f).data.contains '/' = true := by
  rw [slash_data_eq]
  simp [List.contains]

theorem slash_ne_empty (n f : String) : (n ++ "/" ++ f) ≠ "" := by
  intro h
  have hd := congrArg String.data h
  rw [slash_data_eq] at hd
  simp at hd

theorem parseThemePath_two (n f : String) (hn : '/' ∉ n.data) (hf : '/' ∉ f.data) :
    parseThemePath (n ++ "/" ++ f) =
      (n, if f.endsWith ".css" then f else f ++ ".css") := by
  simp [parseThemePath, slash_contains, themeNameOf_two n f hn hf, themeFileOf_two n f hn hf]

/-- The substring-containment relation used by the render-completeness
statements: sub occurs contiguously inside s. -/
def containsStr (s sub : String) : Prop :=
  ∃ pre post, s = pre ++ (sub ++ post)

theorem containsStr_of_eq (s sub pre post : String) (h : s = pre ++ (sub ++ post)) :
    containsStr s sub :=
  ⟨pre, post, h⟩

theorem containsStr_trans (a b c : String) (h1 : containsStr a b) (h2 : containsStr b c) :
    containsStr a c := by
  obtain ⟨p1, q1, e1⟩ := h1
  obtain ⟨p2, q2, e2⟩ := h2
  exact ⟨p1 ++ p2, q2 ++ q1, by rw [e1, e2]; simp [String.append_assoc]⟩

theorem containsStr_join_of_mem {α : Type} (f : α → String) (l : List α) (x : α)
    (hx : x ∈ l) : containsStr (String.join (l.map f)) (f x) := by
  induction l with
  | nil => cases hx
  | cons a as ih =>
      rcases List.mem_cons.mp hx with h | h
      · subst h
        exact ⟨"", String.join (as.map f), by simp [strJoin_cons]⟩
      · obtain ⟨p, q, e⟩ := ih h
        refine ⟨f a ++ p, q, ?_⟩
        simp only [List.map_cons, strJoin_cons, e]
        simp [String.append_assoc]

theorem containsStr_joinSep_of_mem {α : Type} (sep : String) (f : α → String) (l : List α)
    (x : α) (hx : x ∈ l) : containsStr (joinSep sep (l.map f)) (f x) := by
  induction l with
  | nil => cases hx
  | cons a as ih =>
      rcases List.mem_cons.mp hx with h | h
      · subst h
        cases as with
        | nil => exact ⟨"", "", by simp [joinSep, String.append_empty]⟩
        | cons b bs =>
            refine ⟨"", sep ++ joinSep sep ((b :: bs).map f), ?_⟩
            simp [joinSep, String.append_assoc]
      · cases as with
        | nil => cases h
        | cons b bs =>
            obtain ⟨p, q, e⟩ := ih h
            refine ⟨f a ++ sep ++ p, q, ?_⟩
            simp only [List.map_cons] at e ⊢
            show f a ++ sep ++ joinSep sep (f b :: bs.map f) = _
            rw [e]
            simp [String.append_assoc]

/-! ## Claim theorems -/

/-- C3: for every path, when loadResumeData's fetch fails (transport error
or non-ok status), it returns the empty fallback object, does not invoke
the render step, and leaves both the stored current resume data and the
previously rendered container markup unchanged. -/
theorem C3_load_failure_preserves_state (s : RendererState) (status : Nat) :
    loadResumeData s (Except.error status) = (s, getFallbackResumeData, false) ∧
    (loadResumeData s (Except.error status)).1.currentResumeData = s.currentResumeData ∧
    (loadResumeData s (Except.error status)).1.containerMarkup = s.containerMarkup ∧
    (loadResumeData s (Except.error status)).2.1 = LoadResult.emptyObject ∧
    (loadResumeData s (Except.error status)).2.2 = false := by
  simp [loadResumeData, getFallbackResumeData]

/-- C5 counterexample: the claim says that after a manifest-fetch failure
the substituted fallback manifest makes the dropdown render at least one
usable option in either switcher; but the theme switcher's fallback
manifest has an empty themes array, so populateThemeOptions renders zero
options. -/
theorem C5_counterexample :
    ¬ (1 ≤ (populateThemeOptions themesFallbackData).length) := by
  decide

/-- C5 amended: on manifest-fetch failure the resume switcher's synthetic
fallback manifest yields exactly one usable option (value the example
resume path), while the theme switcher's synthetic fallback manifest is
empty and its dropdown renders zero options. -/
theorem C5_fallback_amended :
    populateResumeOptions resumesFallbackData =
      [{ value := "resources/example/resume-data.json", label := "0" }] ∧
    (populateResumeOptions resumesFallbackData).length = 1 ∧
    (populateResumeOptions resumesFallbackData).all (fun o => !(o.value == "")) = true ∧
    populateThemeOptions themesFallbackData = [] := by
  decide

/-- C6 counterexample: in the page startup trace the resumeRendererReady
dispatch is emitted synchronously during initResumeRenderer, strictly
before the asynchronous first render of the default resume completes, so
the dispatch does not occur only after the first successful render. -/
theorem C6_counterexample :
    (pageStartupTrace true).count PageEvent.readyDispatched = 1 ∧
    PageEvent.initialRenderCompleted ∈ pageStartupTrace true ∧
    (pageStartupTrace true).findIdx (· == PageEvent.readyDispatched) <
      (pageStartupTrace true).findIdx (· == PageEvent.initialRenderCompleted) := by
  decide

/-- C6 amended: the renderer registers itself and dispatches
resumeRendererReady exactly once per page lifetime (the module-variable
guard makes the second trigger a no-op), registration precedes the
dispatch, but the dispatch occurs before the first render of the default
resume completes, since the initial load is asynchronous. -/
theorem C6_register_dispatch_once :
    ((pageStartupTrace true).count PageEvent.readyDispatched = 1 ∧
     (pageStartupTrace false).count PageEvent.readyDispatched = 1) ∧
    ((pageStartupTrace true).count PageEvent.rendererRegistered = 1 ∧
     (pageStartupTrace false).count PageEvent.rendererRegistered = 1) ∧
    (pageStartupTrace true).findIdx (· == PageEvent.rendererRegistered) <
      (pageStartupTrace true).findIdx (· == PageEvent.readyDispatched) ∧
    (pageStartupTrace true).findIdx (· == PageEvent.readyDispatched) <
      (pageStartupTrace true).findIdx (· == PageEvent.initialRenderCompleted) := by
  decide

theorem append_slash_theme_data (n : String) :
    (n ++ "/theme").data = n.data ++ '/' :: ("theme" : String).data := by
  rw [String.data_append]

theorem themeNameOf_append_theme (n : String) (hn : '/' ∉ n.data) :
    themeNameOf (n ++ "/theme") = n := by
  simp only [themeNameOf, jsSplitOnSlash, append_slash_theme_data]
  rw [splitAux_sep_split '/' n.data _ [] hn, splitAux_no_sep '/' _ [] (by decide)]
  simp

theorem append_slash_theme_ne_empty (n : String) : n ++ "/theme" ≠ "" := by
  intro h
  have hd := congrArg String.data h
  rw [append_slash_theme_data] at hd
  simp at hd

/-- C1: both initial-selection resolutions follow the strict precedence
URL parameter (matching an existing manifest entry) over persisted storage
value (matching an existing entry) over the manifest's first entry over
the hardcoded fallback used only for an empty manifest; in particular,
with manifest entries A then B, URL parameter selecting B and persisted
value selecting A, the resolution picks B. -/
theorem C1_initial_selection_precedence :
    (∀ (rd : Option ResumesData) (up st : Option String),
      ((strTruthy up && resumeExists rd (up.getD "")) = true →
        resolveInitialResume rd up st = up.getD "") ∧
      ((strTruthy up && resumeExists rd (up.getD "")) = false →
       (strTruthy st && resumeExists rd (st.getD "")) = true →
        resolveInitialResume rd up st = st.getD "") ∧
      (∀ dd nm e rest, (strTruthy up && resumeExists rd (up.getD "")) = false →
       (strTruthy st && resumeExists rd (st.getD "")) = false →
        rd = some dd → dd.resumes = (nm, e) :: rest →
        resolveInitialResume rd up st = e.jsonFile) ∧
      ((strTruthy up && resumeExists rd (up.getD "")) = false →
       (strTruthy st && resumeExists rd (st.getD "")) = false →
       (rd = none ∨ ∃ dd, rd = some dd ∧ dd.resumes = []) →
        resolveInitialResume rd up st = "resources/example/resume-data.json")) ∧
    (∀ (td : Option ThemesData) (up st : Option String),
      ((strTruthy up && themeExists td (up.getD "")) = true →
        resolveInitialTheme td up st = up.getD "") ∧
      ((strTruthy up && themeExists td (up.getD "")) = false →
       (strTruthy st && themeExists td (st.getD "")) = true →
        resolveInitialTheme td up st = st.getD "") ∧
      (∀ dd t rest, (strTruthy up && themeExists td (up.getD "")) = false →
       (strTruthy st && themeExists td (st.getD "")) = false →
        td = some dd → dd.themes = t :: rest →
        resolveInitialTheme td up st = t.name ++ "/theme") ∧
      ((strTruthy up && themeExists td (up.getD "")) = false →
       (strTruthy st && themeExists td (st.getD "")) = false →
       (td = none ∨ ∃ dd, td = some dd ∧ dd.themes = []) →
        resolveInitialTheme td up st = "cyberpunk/theme")) ∧
    (∀ (md : ResumesData) (nA nB : String) (eA eB : ResumeEntry),
      md.resumes = [(nA, eA), (nB, eB)] → eB.jsonFile ≠ "" →
      resolveInitialResume (some md) (some eB.jsonFile) (some eA.jsonFile) = eB.jsonFile) ∧
    (∀ (td : ThemesData) (tA tB : ThemeEntry),
      td.themes = [tA, tB] → '/' ∉ tB.name.data →
      resolveInitialTheme (some td) (some (tB.name ++ "/theme"))
        (some (tA.name ++ "/theme")) = tB.name ++ "/theme") := by
  refine ⟨?_, ?_, ?_, ?_⟩
  · intro rd up st
    refine ⟨?_, ?_, ?_, ?_⟩
    · intro h1
      simp [resolveInitialResume, h1]
    · intro h1 h2
      simp [resolveInitialResume, h1, h2]
    · intro dd nm e rest h1 h2 hd hres
      subst hd
      simp [resolveInitialResume, h1, h2, hres]
    · intro h1 h2 hempty
      rcases hempty with h | ⟨dd, hd, hres⟩
      · subst h
        simp [resolveInitialResume, h1, h2]
      · subst hd
        simp [resolveInitialResume, h1, h2, hres]
  · intro td up st
    refine ⟨?_, ?_, ?_, ?_⟩
    · intro h1
      simp [resolveInitialTheme, h1]
    · intro h1 h2
      simp [resolveInitialTheme, h1, h2]
    · intro dd t rest h1 h2 hd hth
      subst hd
      simp [resolveInitialTheme, h1, h2, hth]
    · intro h1 h2 hempty
      rcases hempty with h | ⟨dd, hd, hth⟩
      · subst h
        simp [resolveInitialTheme, h1, h2]
      · subst hd
        simp [resolveInitialTheme, h1, h2, hth]
  · intro md nA nB eA eB hres hne
    have h1 : strTruthy (some eB.jsonFile) = true := by
      simp [strTruthy, hne]
    have h2 : resumeExists (some md) eB.jsonFile = true := by
      simp [resumeExists, hres]
    simp [resolveInitialResume, h1, h2]
  · intro td tA tB hth hslash
    have h1 : strTruthy (some (tB.name ++ "/theme")) = true := by
      simp [strTruthy, append_slash_theme_ne_empty]
    have h2 : themeExists (some td) (tB.name ++ "/theme") = true := by
      simp [themeExists, hth, themeNameOf_append_theme tB.name hslash]
    simp [resolveInitialTheme, h1, h2]

/-- C1 witness: the precedence theorem instantiated at the two-entry
manifests of the claim's scenario, with all hypotheses discharged. -/
theorem C1_initial_selection_precedence_witness :
    resolveInitialResume
      (some { version := "1", totalResumes := 2,
              resumes := [("alpha", { jsonFile := "a.json", jsonSize := 1, hasPngPhoto := false }),
                          ("beta", { jsonFile := "b.json", jsonSize := 1, hasPngPhoto := false })] })
      (some "b.json") (some "a.json") = "b.json" ∧
    resolveInitialTheme
      (some { version := "1", totalThemes := 2,
              themes := [{ name := "light" }, { name := "dark" }] })
      (some ("dark" ++ "/theme")) (some ("light" ++ "/theme")) = "dark" ++ "/theme" := by
  constructor
  · exact C1_initial_selection_precedence.2.2.1
      { version := "1", totalResumes := 2,
        resumes := [("alpha", { jsonFile := "a.json", jsonSize := 1, hasPngPhoto := false }),
                    ("beta", { jsonFile := "b.json", jsonSize := 1, hasPngPhoto := false })] }
      "alpha" "beta" _ _ rfl (by decide)
  · exact C1_initial_selection_precedence.2.2.2
      { version := "1", totalThemes := 2,
        themes := [{ name := "light" }, { name := "dark" }] }
      { name := "light" } { name := "dark" } rfl (by decide)

theorem changeResume_sets_current (s : SwitcherState) (v : String) :
    (changeResume s v).1.currentResume = some v := by
  by_cases h : s.currentResume = some v <;> simp [changeResume, h]

theorem changeTheme_sets_current (s : ThemeState) (w : String) :
    (changeTheme s w).1.currentTheme = some w := by
  by_cases h : s.currentTheme = some w <;> simp [changeTheme, h]

theorem changeResume_noop (s : SwitcherState) (v : String)
    (h : s.currentResume = some v) : changeResume s v = (s, []) := by
  simp [changeResume, h]

theorem changeTheme_noop (s : ThemeState) (w : String)
    (h : s.currentTheme = some w) : changeTheme s w = (s, []) := by
  simp [changeTheme, h]

/-- C2: a second call of the change operation with the value that is
already current is a no-op (no effects, state untouched), so two
consecutive calls with the same value perform the state mutation, the
persistence write and the notification dispatch exactly once each
(provided the first call was not itself a no-op). -/
theorem C2_change_idempotent (rs : SwitcherState) (ts : ThemeState) (v w : String) :
    ((changeResume (changeResume rs v).1 v).2 = [] ∧
     (changeResume (changeResume rs v).1 v).1 = (changeResume rs v).1 ∧
     (rs.currentResume ≠ some v →
       ((changeResume rs v).2 ++ (changeResume (changeResume rs v).1 v).2).countP
         isResumeMutation = 1 ∧
       ((changeResume rs v).2 ++ (changeResume (changeResume rs v).1 v).2).countP
         isResumePersist = 1 ∧
       ((changeResume rs v).2 ++ (changeResume (changeResume rs v).1 v).2).countP
         isResumeDispatch = 1)) ∧
    ((changeTheme (changeTheme ts w).1 w).2 = [] ∧
     (changeTheme (changeTheme ts w).1 w).1 = (changeTheme ts w).1 ∧
     (ts.currentTheme ≠ some w →
       ((changeTheme ts w).2 ++ (changeTheme (changeTheme ts w).1 w).2).countP
         isThemeMutation = 1 ∧
       ((changeTheme ts w).2 ++ (changeTheme (changeTheme ts w).1 w).2).countP
         isThemePersist = 1 ∧
       ((changeTheme ts w).2 ++ (changeTheme (changeTheme ts w).1 w).2).countP
         isThemeDispatch = 1)) := by
  have hr := changeResume_sets_current rs v
  have ht := changeTheme_sets_current ts w
  have hr2 : changeResume (changeResume rs v).1 v = ((changeResume rs v).1, []) :=
    changeResume_noop _ v hr
  have ht2 : changeTheme (changeTheme ts w).1 w = ((changeTheme ts w).1, []) :=
    changeTheme_noop _ w ht
  refine ⟨⟨by simp [hr2], by simp [hr2], ?_⟩, ⟨by simp [ht2], by simp [ht2], ?_⟩⟩
  · intro hne
    rw [hr2]
    by_cases hb : rs.rendererRegistered <;>
      by_cases hu : strTruthy rs.urlResumeParam <;>
        simp [changeResume, hne, hb, hu, isResumeMutation, isResumePersist, isResumeDispatch]
  · intro hne
    rw [ht2]
    by_cases hs : ts.hasStylesheet <;>
      by_cases hp : ts.pdfHandlerPresent <;>
        simp [changeTheme, hne, hs, hp, isThemeMutation, isThemePersist, isThemeDispatch]

/-- C2 witness: the idempotence theorem at concrete states and values,
with the non-no-op hypotheses discharged. -/
theorem C2_change_idempotent_witness :
    (changeResume
      (changeResume
        { currentResume := none, storedResume := none, rendererRegistered := true,
          urlResumeParam := none } "a.json").1 "a.json").2 = [] ∧
    ((changeResume
        { currentResume := none, storedResume := none, rendererRegistered := true,
          urlResumeParam := none } "a.json").2 ++
     (changeResume
      (changeResume
        { currentResume := none, storedResume := none, rendererRegistered := true,
          urlResumeParam := none } "a.json").1 "a.json").2).countP isResumeDispatch = 1 ∧
    (changeTheme
      (changeTheme
        { currentTheme := none, storedTheme := none, hasStylesheet := true,
          stylesheetHref := none, bodyDataTheme := none, bodyPdfMode := false,
          pdfHandlerPresent := false } "dark/theme").1 "dark/theme").2 = [] := by
  refine ⟨?_, ?_, ?_⟩
  · exact (C2_change_idempotent
      { currentResume := none, storedResume := none, rendererRegistered := true,
        urlResumeParam := none }
      { currentTheme := none, storedTheme := none, hasStylesheet := true,
        stylesheetHref := none, bodyDataTheme := none, bodyPdfMode := false,
        pdfHandlerPresent := false } "a.json" "dark/theme").1.1
  · exact ((C2_change_idempotent
      { currentResume := none, storedResume := none, rendererRegistered := true,
        urlResumeParam := none }
      { currentTheme := none, storedTheme := none, hasStylesheet := true,
        stylesheetHref := none, bodyDataTheme := none, bodyPdfMode := false,
        pdfHandlerPresent := false } "a.json" "dark/theme").1.2.2 (by decide)).2.2
  · exact (C2_change_idempotent
      { currentResume := none, storedResume := none, rendererRegistered := true,
        urlResumeParam := none }
      { currentTheme := none, storedTheme := none, hasStylesheet := true,
        stylesheetHref := none, bodyDataTheme := none, bodyPdfMode := false,
        pdfHandlerPresent := false } "a.json" "dark/theme").2.1

/-- C4: when changeResume runs with no renderer registered, it still
mutates the current selection, persists it and dispatches resumeChanged
carrying the new path; with no resume URL parameter it performs exactly
one navigation to the same page with resume set to the new path, and with
a resume parameter already present it inserts the error panel and
performs no navigation. -/
theorem C4_no_renderer_behavior (s : SwitcherState) (p : String)
    (h1 : s.currentResume ≠ some p) (h2 : s.rendererRegistered = false) :
    ((changeResume s p).1.currentResume = some p ∧
     (changeResume s p).1.storedResume = some p ∧
     ResumeEffect.persist p ∈ (changeResume s p).2 ∧
     ResumeEffect.dispatchResumeChanged p ∈ (changeResume s p).2) ∧
    (strTruthy s.urlResumeParam = false →
      (changeResume s p).2 =
        [ResumeEffect.mutateCurrent p, ResumeEffect.persist p,
         ResumeEffect.navigate ("?resume=" ++ encodeURIComponent p),
         ResumeEffect.dispatchResumeChanged p] ∧
      (changeResume s p).2.countP isNavigateEffect = 1 ∧
      (changeResume s p).2.countP isErrorPanelEffect = 0) ∧
    (strTruthy s.urlResumeParam = true →
      (changeResume s p).2 =
        [ResumeEffect.mutateCurrent p, ResumeEffect.persist p,
         ResumeEffect.insertErrorPanel,
         ResumeEffect.dispatchResumeChanged p] ∧
      (changeResume s p).2.countP isNavigateEffect = 0 ∧
      (changeResume s p).2.countP isErrorPanelEffect = 1) := by
  refine ⟨?_, ?_, ?_⟩
  · by_cases hu : strTruthy s.urlResumeParam <;>
      simp [changeResume, h1, h2, hu]
  · intro hu
    simp [changeResume, h1, h2, hu, isNavigateEffect, isErrorPanelEffect]
  · intro hu
    simp [changeResume, h1, h2, hu, isNavigateEffect, isErrorPanelEffect]

/-- C4 witness: the theorem at a concrete no-renderer state without a URL
parameter, all hypotheses discharged. -/
theorem C4_no_renderer_behavior_witness :
    (changeResume
      { currentResume := none, storedResume := none, rendererRegistered := false,
        urlResumeParam := none } "b.json").2 =
      [ResumeEffect.mutateCurrent "b.json", ResumeEffect.persist "b.json",
       ResumeEffect.navigate ("?resume=" ++ encodeURIComponent "b.json"),
       ResumeEffect.dispatchResumeChanged "b.json"] :=
  ((C4_no_renderer_behavior
    { currentResume := none, storedResume := none, rendererRegistered := false,
      urlResumeParam := none } "b.json" (by decide) rfl).2.1 rfl).1

/-- C7: in every execution of changeResume / changeTheme, any dispatched
resumeChanged / themeChanged notification appears in the effect trace only
after an in-memory current-selection mutation and a persistence write have
both occurred, and whenever a dispatch occurs the final state already
carries the new value, so listeners observe the updated state. -/
theorem C7_dispatch_after_writes (rs : SwitcherState) (v : String)
    (ts : ThemeState) (w : String) :
    checkDispatchAfterWrites isResumeMutation isResumePersist isResumeDispatch
      (changeResume rs v).2 false false = true ∧
    ((changeResume rs v).2.any isResumeDispatch = true →
      (changeResume rs v).2.countP isResumeMutation = 1 ∧
      (changeResume rs v).2.countP isResumePersist = 1 ∧
      ResumeEffect.mutateCurrent v ∈ (changeResume rs v).2 ∧
      ResumeEffect.persist v ∈ (changeResume rs v).2 ∧
      (changeResume rs v).1.currentResume = some v ∧
      (changeResume rs v).1.storedResume = some v) ∧
    checkDispatchAfterWrites isThemeMutation isThemePersist isThemeDispatch
      (changeTheme ts w).2 false false = true ∧
    ((changeTheme ts w).2.any isThemeDispatch = true →
      ThemeEffect.mutateCurrent w ∈ (changeTheme ts w).2 ∧
      ThemeEffect.persist w ∈ (changeTheme ts w).2 ∧
      (changeTheme ts w).1.currentTheme = some w ∧
      (changeTheme ts w).1.storedTheme = some w) := by
  refine ⟨?_, ?_, ?_, ?_⟩
  · by_cases hc : rs.currentResume = some v
    · simp [changeResume_noop rs v hc, checkDispatchAfterWrites]
    · by_cases hb : rs.rendererRegistered <;>
        by_cases hu : strTruthy rs.urlResumeParam <;>
          simp [changeResume, hc, hb, hu, checkDispatchAfterWrites,
            isResumeMutation, isResumePersist, isResumeDispatch]
  · intro hd
    by_cases hc : rs.currentResume = some v
    · rw [changeResume_noop rs v hc] at hd
      simp at hd
    · by_cases hb : rs.rendererRegistered <;>
        by_cases hu : strTruthy rs.urlResumeParam <;>
          simp [changeResume, hc, hb, hu,
            isResumeMutation, isResumePersist, isResumeDispatch]
  · by_cases hc : ts.currentTheme = some w
    · simp [changeTheme_noop ts w hc, checkDispatchAfterWrites]
    · by_cases hs : ts.hasStylesheet <;>
        by_cases hp : ts.pdfHandlerPresent <;>
          simp [changeTheme, hc, hs, hp, checkDispatchAfterWrites,
            isThemeMutation, isThemePersist, isThemeDispatch]
  · intro hd
    by_cases hc : ts.currentTheme = some w
    · rw [changeTheme_noop ts w hc] at hd
      simp at hd
    · by_cases hs : ts.hasStylesheet <;>
        by_cases hp : ts.pdfHandlerPresent <;>
          simp [changeTheme, hc, hs, hp]

/-- C7 witness: the ordering theorem at concrete states, with the
dispatch-occurred hypotheses discharged. -/
theorem C7_dispatch_after_writes_witness :
    checkDispatchAfterWrites isResumeMutation isResumePersist isResumeDispatch
      (changeResume
        { currentResume := none, storedResume := none, rendererRegistered := true,
          urlResumeParam := none } "a.json").2 false false = true ∧
    (changeResume
      { currentResume := none, storedResume := none, rendererRegistered := true,
        urlResumeParam := none } "a.json").1.currentResume = some "a.json" ∧
    (changeTheme
      { currentTheme := none, storedTheme := none, hasStylesheet := true,
        stylesheetHref := none, bodyDataTheme := none, bodyPdfMode := false,
        pdfHandlerPresent := false } "dark/theme").1.storedTheme = some "dark/theme" := by
  refine ⟨?_, ?_, ?_⟩
  · exact (C7_dispatch_after_writes
      { currentResume := none, storedResume := none, rendererRegistered := true,
        urlResumeParam := none } "a.json"
      { currentTheme := none, storedTheme := none, hasStylesheet := true,
        stylesheetHref := none, bodyDataTheme := none, bodyPdfMode := false,
        pdfHandlerPresent := false } "dark/theme").1
  · exact ((C7_dispatch_after_writes
      { currentResume := none, storedResume := none, rendererRegistered := true,
        urlResumeParam := none } "a.json"
      { currentTheme := none, storedTheme := none, hasStylesheet := true,
        stylesheetHref := none, bodyDataTheme := none, bodyPdfMode := false,
        pdfHandlerPresent := false } "dark/theme").2.1 (by decide)).2.2.2.2.1
  · exact ((C7_dispatch_after_writes
      { currentResume := none, storedResume := none, rendererRegistered := true,
        urlResumeParam := none } "a.json"
      { currentTheme := none, storedTheme := none, hasStylesheet := true,
        stylesheetHref := none, bodyDataTheme := none, bodyPdfMode := false,
        pdfHandlerPresent := false } "dark/theme").2.2.2 (by decide)).2.2.2

/-- C9 counterexample: the claim says the body's data-theme attribute
equals the theme key after changeTheme, but for the key "dark/theme" the
source sets data-theme to the name segment "dark", which differs from the
key. -/
theorem C9_counterexample :
    (changeTheme
      { currentTheme := none, storedTheme := none, hasStylesheet := true,
        stylesheetHref := none, bodyDataTheme := none, bodyPdfMode := false,
        pdfHandlerPresent := false } "dark/theme").1.bodyDataTheme = some "dark" ∧
    (changeTheme
      { currentTheme := none, storedTheme := none, hasStylesheet := true,
        stylesheetHref := none, bodyDataTheme := none, bodyPdfMode := false,
        pdfHandlerPresent := false } "dark/theme").1.bodyDataTheme ≠ some "dark/theme" := by
  constructor
  · decide
  · decide

/-- C9 amended: after changeTheme with a fresh key of the form name/file,
the stylesheet href is the css/name/file(.css) path resolved from the
key, the body's data-theme attribute equals the theme NAME (the segment
before the slash — not the full theme key as the claim stated), the
current-theme state and persisted value equal the key, and a themeChanged
notification carrying the theme name, the full stylesheet path and the
pdf-mode flag of the body is dispatched. -/
theorem C9_change_theme_amended (ts : ThemeState) (n f : String)
    (hn : '/' ∉ n.data) (hf : '/' ∉ f.data)
    (hcur : ts.currentTheme ≠ some (n ++ "/" ++ f)) (hsty : ts.hasStylesheet = true) :
    (changeTheme ts (n ++ "/" ++ f)).1.stylesheetHref =
      some ("css/" ++ n ++ "/" ++ (if f.endsWith ".css" then f else f ++ ".css")) ∧
    (changeTheme ts (n ++ "/" ++ f)).1.bodyDataTheme = some n ∧
    (changeTheme ts (n ++ "/" ++ f)).1.currentTheme = some (n ++ "/" ++ f) ∧
    (changeTheme ts (n ++ "/" ++ f)).1.storedTheme = some (n ++ "/" ++ f) ∧
    ThemeEffect.dispatchThemeChanged
      { themeName := n, themeFile := if f.endsWith ".css" then f else f ++ ".css",
        fullPath := "css/" ++ n ++ "/" ++ (if f.endsWith ".css" then f else f ++ ".css"),
        isPDFMode := ts.bodyPdfMode } ∈ (changeTheme ts (n ++ "/" ++ f)).2 := by
  simp [changeTheme, hcur, hsty, parseThemePath_two n f hn hf]

/-- C9 witness: the amended theorem at a concrete state and the key
"dark/theme", all hypotheses discharged. -/
theorem C9_change_theme_amended_witness :
    (changeTheme
      { currentTheme := none, storedTheme := none, hasStylesheet := true,
        stylesheetHref := none, bodyDataTheme := none, bodyPdfMode := false,
        pdfHandlerPresent := false } ("dark" ++ "/" ++ "theme")).1.stylesheetHref =
      some ("css/" ++ "dark" ++ "/" ++
        (if ("theme" : String).endsWith ".css" then "theme" else "theme" ++ ".css")) ∧
    (changeTheme
      { currentTheme := none, storedTheme := none, hasStylesheet := true,
        stylesheetHref := none, bodyDataTheme := none, bodyPdfMode := false,
        pdfHandlerPresent := false } ("dark" ++ "/" ++ "theme")).1.bodyDataTheme =
      some "dark" := by
  have h := C9_change_theme_amended
    { currentTheme := none, storedTheme := none, hasStylesheet := true,
      stylesheetHref := none, bodyDataTheme := none, bodyPdfMode := false,
      pdfHandlerPresent := false } "dark" "theme" (by decide) (by decide) (by decide) rfl
  exact ⟨h.1, h.2.1⟩

/-- C10: themeExists on a path of the form name/file tests only whether
some manifest theme has that name, ignoring the file segment entirely;
changeTheme on such a path sets the stylesheet href to css/name/file with
".css" appended only when the file segment does not already end in it;
and setInitialTheme accepts such a path from the URL parameter or from
persisted storage whenever the name matches a manifest theme, so an
arbitrary file segment is resolved and applied without validation. -/
theorem C10_theme_path_resolution (dd : ThemesData) (n f : String) (ts : ThemeState)
    (hn : '/' ∉ n.data) (hf : '/' ∉ f.data) :
    (themeExists (some dd) (n ++ "/" ++ f) = dd.themes.any (fun t => t.name == n)) ∧
    (ts.currentTheme ≠ some (n ++ "/" ++ f) → ts.hasStylesheet = true →
      (changeTheme ts (n ++ "/" ++ f)).1.stylesheetHref =
        some ("css/" ++ n ++ "/" ++ (if f.endsWith ".css" then f else f ++ ".css"))) ∧
    (∀ stored : Option String, dd.themes.any (fun t => t.name == n) = true →
      resolveInitialTheme (some dd) (some (n ++ "/" ++ f)) stored = n ++ "/" ++ f) ∧
    (dd.themes.any (fun t => t.name == n) = true →
      resolveInitialTheme (some dd) none (some (n ++ "/" ++ f)) = n ++ "/" ++ f) := by
  have hname := themeNameOf_two n f hn hf
  have hex : themeExists (some dd) (n ++ "/" ++ f) = dd.themes.any (fun t => t.name == n) := by
    simp [themeExists, hname]
  have htr : strTruthy (some (n ++ "/" ++ f)) = true := by
    simp [strTruthy, slash_ne_empty n f]
  refine ⟨hex, ?_, ?_, ?_⟩
  · intro hcur hsty
    simp [changeTheme, hcur, hsty, parseThemePath_two n f hn hf]
  · intro stored hany
    simp [resolveInitialTheme, htr, hex, hany]
  · intro hany
    have hnone : strTruthy none = false := rfl
    simp [resolveInitialTheme, hnone, htr, hex, hany]

/-- C10 witness: the theorem at a concrete manifest, state, name and an
arbitrary file segment, all hypotheses discharged. -/
theorem C10_theme_path_resolution_witness :
    themeExists
      (some { version := "1", totalThemes := 1, themes := [{ name := "dark" }] })
      ("dark" ++ "/" ++ "anything") = true ∧
    resolveInitialTheme
      (some { version := "1", totalThemes := 1, themes := [{ name := "dark" }] })
      (some ("dark" ++ "/" ++ "anything")) none = "dark" ++ "/" ++ "anything" := by
  have h := C10_theme_path_resolution
    { version := "1", totalThemes := 1, themes := [{ name := "dark" }] }
    "dark" "anything"
    { currentTheme := none, storedTheme := none, hasStylesheet := true,
      stylesheetHref := none, bodyDataTheme := none, bodyPdfMode := false,
      pdfHandlerPresent := false } (by decide) (by decide)
  refine ⟨?_, h.2.2.1 none (by decide)⟩
  rw [h.1]
  decide

theorem containsStr_self (s : String) : containsStr s s :=
  ⟨"", "", by simp [String.append_empty]⟩

theorem containsStr_append_left (a s sub : String) (h : containsStr s sub) :
    containsStr (a ++ s) sub := by
  obtain ⟨p, q, e⟩ := h
  exact ⟨a ++ p, q, by rw [e, String.append_assoc]⟩

theorem containsStr_append_right (s b sub : String) (h : containsStr s sub) :
    containsStr (s ++ b) sub := by
  obtain ⟨p, q, e⟩ := h
  exact ⟨p, q ++ b, by rw [e]; simp [String.append_assoc]⟩

theorem containsStr_append_here (a sub : String) : containsStr (a ++ sub) sub :=
  containsStr_append_left a sub sub (containsStr_self sub)

theorem containsStr_markup_of_main (data : ResumeData) (sub : String)
    (h : containsStr (mainHtml data) sub) : containsStr (resumeMarkup data) sub := by
  unfold resumeMarkup
  apply containsStr_append_right
  exact containsStr_append_left _ _ _ h

theorem containsStr_markup_of_sidebar (data : ResumeData) (sub : String)
    (h : containsStr (sidebarHtml data) sub) : containsStr (resumeMarkup data) sub := by
  unfold resumeMarkup
  apply containsStr_append_right
  apply containsStr_append_right
  exact containsStr_append_left _ _ _ h

theorem mainHtml_contains_experience (data : ResumeData) :
    containsStr (mainHtml data) (String.join (data.experience.map renderJob)) := by
  unfold mainHtml
  repeat
    first
    | exact containsStr_append_here _ _
    | apply containsStr_append_right

theorem sidebarHtml_contains_skills (data : ResumeData) :
    containsStr (sidebarHtml data)
      (String.join (data.skills.map (fun pr => renderSkillSection pr.1 pr.2))) := by
  unfold sidebarHtml
  repeat
    first
    | exact containsStr_append_here _ _
    | apply containsStr_append_right

theorem sidebarHtml_contains_qualities (data : ResumeData) :
    containsStr (sidebarHtml data) (joinSep " " (data.qualities.map renderQualityPill)) := by
  unfold sidebarHtml
  repeat
    first
    | exact containsStr_append_here _ _
    | apply containsStr_append_right

theorem renderJob_contains_fields (j : Job) :
    containsStr (renderJob j) j.role ∧ containsStr (renderJob j) j.company ∧
    containsStr (renderJob j) j.date ∧ containsStr (renderJob j) j.location ∧
    containsStr (renderJob j) j.tech := by
  refine ⟨?_, ?_, ?_, ?_, ?_⟩ <;>
    · unfold renderJob
      repeat
        first
        | exact containsStr_append_here _ _
        | apply containsStr_append_right

theorem renderJob_contains_bullet (j : Job) (b : String) (hb : b ∈ j.bullets) :
    containsStr (renderJob j) ("<li>" ++ b ++ "</li>") := by
  have hj := containsStr_join_of_mem (fun b => "<li>" ++ b ++ "</li>") j.bullets b hb
  unfold renderJob
  apply containsStr_append_right
  exact containsStr_append_left _ _ _ hj

theorem renderSkillSection_contains_row (c : String) (items : List Skill) (item : Skill)
    (hi : item ∈ items) : containsStr (renderSkillSection c items) (renderSkillRow item) := by
  have hj := containsStr_join_of_mem renderSkillRow items item hi
  unfold renderSkillSection
  apply containsStr_append_right
  exact containsStr_append_left _ _ _ hj

theorem renderSkillRow_contains_name (item : Skill) :
    containsStr (renderSkillRow item) item.name := by
  unfold renderSkillRow
  repeat
    first
    | exact containsStr_append_here _ _
    | apply containsStr_append_right

theorem renderQualityPill_contains (q : String) :
    containsStr (renderQualityPill q) q := by
  unfold renderQualityPill
  apply containsStr_append_right
  exact containsStr_append_here _ _

attribute [irreducible] renderJob renderSkillSection renderSkillRow renderQualityPill sidebarHtml mainHtml resumeMarkup skillCategoryTitle

/-- C8: for a document with N experience entries, M skill categories and
K qualities, renderResume's markup contains the N job articles joined in
the data's order (each job article carrying its role, company, date,
location and tech, and one list item per bullet), the M skill sections
joined in the data's order (each skill row carrying its skill's name),
and the K quality pills joined in the data's order (each carrying its
quality string); the emitted block lists have exactly N, M and K
elements respectively. -/
theorem C8_render_completeness (data : ResumeData) :
    ((data.experience.map renderJob).length = data.experience.length ∧
     containsStr (resumeMarkup data) (String.join (data.experience.map renderJob)) ∧
     ∀ j ∈ data.experience,
       containsStr (resumeMarkup data) (renderJob j) ∧
       containsStr (renderJob j) j.role ∧
       containsStr (renderJob j) j.company ∧
       containsStr (renderJob j) j.date ∧
       containsStr (renderJob j) j.location ∧
       containsStr (renderJob j) j.tech ∧
       (j.bullets.map (fun b => "<li>" ++ b ++ "</li>")).length = j.bullets.length ∧
       ∀ b ∈ j.bullets, containsStr (renderJob j) ("<li>" ++ b ++ "</li>")) ∧
    ((data.skills.map (fun pr => renderSkillSection pr.1 pr.2)).length = data.skills.length ∧
     containsStr (resumeMarkup data)
       (String.join (data.skills.map (fun pr => renderSkillSection pr.1 pr.2))) ∧
     ∀ pr ∈ data.skills,
       containsStr (resumeMarkup data) (renderSkillSection pr.1 pr.2) ∧
       (pr.2.map renderSkillRow).length = pr.2.length ∧
       ∀ item ∈ pr.2,
         containsStr (renderSkillSection pr.1 pr.2) (renderSkillRow item) ∧
         containsStr (renderSkillRow item) item.name) ∧
    ((data.qualities.map renderQualityPill).length = data.qualities.length ∧
     containsStr (resumeMarkup data) (joinSep " " (data.qualities.map renderQualityPill)) ∧
     ∀ q ∈ data.qualities,
       containsStr (resumeMarkup data) (renderQualityPill q) ∧
       containsStr (renderQualityPill q) q) := by
  refine ⟨⟨List.length_map _ _, ?_, ?_⟩, ⟨List.length_map _ _, ?_, ?_⟩,
    ⟨List.length_map _ _, ?_, ?_⟩⟩
  · exact containsStr_markup_of_main data _ (mainHtml_contains_experience data)
  · intro j hj
    have hfields := renderJob_contains_fields j
    refine ⟨?_, hfields.1, hfields.2.1, hfields.2.2.1, hfields.2.2.2.1, hfields.2.2.2.2,
      List.length_map _ _, fun b hb => renderJob_contains_bullet j b hb⟩
    refine containsStr_markup_of_main data _ ?_
    refine containsStr_trans _ _ _ (mainHtml_contains_experience data) ?_
    exact containsStr_join_of_mem renderJob data.experience j hj
  · exact containsStr_markup_of_sidebar data _ (sidebarHtml_contains_skills data)
  · intro pr hpr
    refine ⟨?_, List.length_map _ _,
      fun item hi => ⟨renderSkillSection_contains_row pr.1 pr.2 item hi,
        renderSkillRow_contains_name item⟩⟩
    refine containsStr_markup_of_sidebar data _ ?_
    refine containsStr_trans _ _ _ (sidebarHtml_contains_skills data) ?_
    exact containsStr_join_of_mem (fun pr => renderSkillSection pr.1 pr.2) data.skills pr hpr
  · exact containsStr_markup_of_sidebar data _ (sidebarHtml_contains_qualities data)
  · intro q hq
    refine ⟨?_, renderQualityPill_contains q⟩
    refine containsStr_markup_of_sidebar data _ ?_
    refine containsStr_trans _ _ _ (sidebarHtml_contains_qualities data) ?_
    exact containsStr_joinSep_of_mem " " renderQualityPill data.qualities q hq

/-- Concrete document used to instantiate the render-completeness
theorem. -/
def c8SampleData : ResumeData :=
  { personal :=
      { name := "Ada", title := "Engineer", photo := "p.png", phone := "1", email := "a@b.c",
        location := "Paris", linkedin := "ada", instagram := "ada", github := "ada",
        workAuth := "EU", hobbies := "chess", summaryMini := "Builds things." }
    skills := [("core_tools", [{ name := "lean", level := 4 }])]
    qualities := ["curious"]
    experience := [{ role := "Dev", company := "Co", date := "2020", location := "X",
                     tech := "JS", bullets := ["did a thing"] }]
    education := []
    projects := [] }

/-- C8 witness: the render-completeness theorem at a concrete document,
with the membership hypotheses of its inner quantifiers discharged. -/
theorem C8_render_completeness_witness :
    (c8SampleData.experience.map renderJob).length = c8SampleData.experience.length ∧
    containsStr (resumeMarkup c8SampleData) (String.join (c8SampleData.experience.map renderJob)) ∧
    containsStr
      (renderJob { role := "Dev", company := "Co", date := "2020", location := "X",
                   tech := "JS", bullets := ["did a thing"] }) "Dev" ∧
    containsStr (renderQualityPill "curious") "curious" := by
  have h := C8_render_completeness c8SampleData
  refine ⟨h.1.1, h.1.2.1, ?_, (h.2.2.2.2 "curious" (by decide)).2⟩
  exact (h.1.2.2
    { role := "Dev", company := "Co", date := "2020", location := "X",
      tech := "JS", bullets := ["did a thing"] } (by decide)).2.1
